import Mathlib

/-!
Shallow embedding of the forecast orchestration and evaluation pipeline of
`chatgpt_app.py`: the metric evaluator (`calculate_metrics`), the four model
adapters (`run_ets_model`, `run_arima_model`, `run_xgboost_model`,
`run_lstm_model`), and the Run Forecast handler (result-collection loop and
plotting recomputation).

Numeric values are modelled by `ℚ`.  The external statistical libraries
(statsmodels, xgboost, keras) are modelled as opaque fitting oracles passed in
as function parameters; the only library behaviour the embedding fixes is the
behaviour the program observably relies on: a fitted statsmodels model's
`forecast(steps=12)` returns one value per step, a regressor predicts one
value per input row, and fitting xgboost or keras on an empty training set
raises an (untyped) error.  One oracle record fixes the outcome of one round
of fit invocations; since the program trains without setting any random seed,
the Run Forecast handler's two rounds of invocations (scoring and plotting)
are each given their own record, so two fits of the same model within one run
are free to disagree.
-/

/-- Errors observable at the program's `except` boundaries.  `valueError`
stands for the untyped exceptions raised by the numeric libraries (sklearn
input validation, xgboost/keras rejection of an empty training set);
`modelFitError` stands for a statsmodels fitting failure.  `dimensionMismatch`
and `insufficientData` are the typed errors named by the specification; the
program never defines or raises them — they are included only so that
statements about them can be expressed. -/
inductive PyError where
  | valueError
  | modelFitError
  | dimensionMismatch
  | insufficientData
  deriving DecidableEq, Repr

/-- The metric dictionary returned by `calculate_metrics` (line 30).  The app
reports RMSE = sqrt(mse); over `ℚ` we carry the radicand `mse` and express
facts about RMSE as `Real.sqrt m.mse`. -/
structure MetricSet where
  mse : ℚ
  mae : ℚ
  smape : ℚ
  deriving DecidableEq, Repr

/-- One entry of `np.where(x == 0, 1e-6, x)` (lines 25-26). -/
def epsSub (x : ℚ) : ℚ := if x = 0 then 1 / 1000000 else x

/-- `np.mean` over a list of rationals. -/
def listMean (xs : List ℚ) : ℚ := xs.sum / (xs.length : ℚ)

/-- `calculate_metrics` (lines 22-30).  Both inputs receive the zero-to-1e-6
substitution before any metric is computed (lines 25-26 precede lines 27-29);
sklearn's `mean_squared_error` raises an untyped ValueError when the lengths
differ or the inputs are empty, modelled by the guard. -/
def calculate_metrics (y_true y_pred : List ℚ) : Except PyError MetricSet :=
  let yt := y_true.map epsSub
  let yp := y_pred.map epsSub
  if yt.length = yp.length ∧ yt.length ≠ 0 then
    let pairs := yt.zip yp
    Except.ok
      { mse := listMean (pairs.map fun x => (x.1 - x.2) ^ 2)
      , mae := listMean (pairs.map fun x => |x.1 - x.2|)
      , smape := 100 * listMean (pairs.map fun x => 2 * |x.1 - x.2| / (|x.1| + |x.2|)) }
  else Except.error PyError.valueError

/-- `run_ets_model` (lines 46-54): the full `time_series`, with `"none"`
mapped to `None`, is handed to the (opaque) `ExponentialSmoothing` fit; the
fitted model forecasts one value per step and `forecast(steps=12)` takes the
first 12. -/
def run_ets_model
    (etsFit : List ℚ → Option String → Option String → ℕ → Bool → Except PyError (ℕ → ℚ))
    (time_series : List ℚ) (trend seasonal : String) (damped_trend : Bool)
    (seasonal_periods : ℕ) : Except PyError (List ℚ) :=
  match etsFit time_series
      (if trend = "none" then none else some trend)
      (if seasonal = "none" then none else some seasonal)
      seasonal_periods damped_trend with
  | Except.error e => Except.error e
  | Except.ok fitted => Except.ok ((List.range 12).map fitted)

/-- `run_arima_model` (lines 56-66): SARIMAX on the full series when
`use_seasonality`, otherwise ARIMA; then `forecast(steps=12)`. -/
def run_arima_model
    (sarimaxFit : List ℚ → ℕ × ℕ × ℕ → ℕ × ℕ × ℕ × ℕ → Except PyError (ℕ → ℚ))
    (arimaFit : List ℚ → ℕ × ℕ × ℕ → Except PyError (ℕ → ℚ))
    (time_series : List ℚ) (p d q P D Q m : ℕ) (use_seasonality : Bool) :
    Except PyError (List ℚ) :=
  match (if use_seasonality
         then sarimaxFit time_series (p, d, q) (P, D, Q, m)
         else arimaFit time_series (p, d, q)) with
  | Except.error e => Except.error e
  | Except.ok fitted => Except.ok ((List.range 12).map fitted)

/-- The matrix `X = np.array([ts.shift(i) for i in range(1, lags+1)]).T[lags:]`
(lines 69 and 80): row `j`, for `lags ≤ j < len ts`, holds
`[ts[j-1], ts[j-2], ..., ts[j-lags]]` (rows with incomplete lag history are
the dropped first `lags` rows). -/
def lagMatrix (ts : List ℚ) (lags : ℕ) : List (List ℚ) :=
  ((List.range ts.length).drop lags).map fun j =>
    (List.range lags).map fun i => ts.getD (j - (i + 1)) 0

/-- The training pair `(X[:-12], y[:-12])` with `y = ts[lags:]`, built
identically by the XGBoost and LSTM adapters (lines 69-70, 76 and 80-81, 90;
Python's `a[:-12]` is `take (length - 12)`). -/
def lagTrainData (ts : List ℚ) (lags : ℕ) : List (List ℚ) × List ℚ :=
  let X := lagMatrix ts lags
  let y := ts.drop lags
  (X.take (X.length - 12), y.take (y.length - 12))

/-- The prediction rows `X[-12:]` (lines 77 and 91; Python's `a[-12:]` is
`drop (length - 12)`). -/
def lagPredictRows (ts : List ℚ) (lags : ℕ) : List (List ℚ) :=
  let X := lagMatrix ts lags
  X.drop (X.length - 12)

/-- Model of `xgb.XGBRegressor(...).fit`: the library rejects an empty
training set with an untyped error; otherwise the learned regressor is the
opaque `learn` oracle applied to the training data, predicting one value per
row. -/
def xgbLibraryFit (learn : List (List ℚ) → List ℚ → List ℚ → ℚ)
    (X : List (List ℚ)) (y : List ℚ) : Except PyError (List ℚ → ℚ) :=
  if X.isEmpty then Except.error PyError.valueError else Except.ok (learn X y)

/-- `run_xgboost_model` (lines 68-77). -/
def run_xgboost_model
    (xgbLearn : ℚ → ℕ → ℕ → List (List ℚ) → List ℚ → List ℚ → ℚ)
    (time_series : List ℚ) (lags : ℕ) (learning_rate : ℚ)
    (n_estimators max_depth : ℕ) : Except PyError (List ℚ) :=
  match xgbLibraryFit (xgbLearn learning_rate n_estimators max_depth)
      (lagTrainData time_series lags).1 (lagTrainData time_series lags).2 with
  | Except.error e => Except.error e
  | Except.ok model => Except.ok ((lagPredictRows time_series lags).map model)

/-- Model of the keras `Sequential` network's fit: fitting on an empty
training set raises; otherwise the trained network is the opaque `net` oracle
(the reshape to `(samples, lags, 1)` and the final `flatten()` do not change
the values). -/
def kerasLibraryFit (net : List (List ℚ) → List ℚ → List ℚ → ℚ)
    (X : List (List ℚ)) (y : List ℚ) : Except PyError (List ℚ → ℚ) :=
  if X.isEmpty then Except.error PyError.valueError else Except.ok (net X y)

/-- `run_lstm_model` (lines 79-91): lag-window construction identical to the
XGBoost adapter, then the keras network. -/
def run_lstm_model
    (lstmLearn : ℕ → ℕ → ℚ → ℕ → ℕ → List (List ℚ) → List ℚ → List ℚ → ℚ)
    (time_series : List ℚ) (lags lstm_units lstm_layers : ℕ) (dropout : ℚ)
    (epochs batch_size : ℕ) : Except PyError (List ℚ) :=
  match kerasLibraryFit (lstmLearn lstm_units lstm_layers dropout epochs batch_size)
      (lagTrainData time_series lags).1 (lagTrainData time_series lags).2 with
  | Except.error e => Except.error e
  | Except.ok model => Except.ok ((lagPredictRows time_series lags).map model)

/-- The sidebar parameters the Run Forecast handler reads (lines 104-137). -/
structure AppConfig where
  trend : String
  seasonal : String
  damped_trend : Bool
  seasonal_periods : ℕ
  p : ℕ
  d : ℕ
  q : ℕ
  P : ℕ
  D : ℕ
  Q : ℕ
  m : ℕ
  use_seasonality : Bool
  lags : ℕ
  learning_rate : ℚ
  n_estimators : ℕ
  max_depth : ℕ
  lstm_units : ℕ
  lstm_layers : ℕ
  dropout : ℚ
  epochs : ℕ
  batch_size : ℕ

/-- The library fitting oracles the app links against, recording the outcome
of ONE invocation of each fit.  The keras (and xgboost) trainings are
unseeded: the program sets no random seed anywhere, so two invocations of the
same fit with identical arguments within one run need not produce the same
trained model.  A separate `AppLibs` record is therefore supplied for each
round of invocations; a library that is deterministic across invocations
corresponds to supplying the same record for every round. -/
structure AppLibs where
  etsFit : List ℚ → Option String → Option String → ℕ → Bool → Except PyError (ℕ → ℚ)
  sarimaxFit : List ℚ → ℕ × ℕ × ℕ → ℕ × ℕ × ℕ × ℕ → Except PyError (ℕ → ℚ)
  arimaFit : List ℚ → ℕ × ℕ × ℕ → Except PyError (ℕ → ℚ)
  xgbLearn : ℚ → ℕ → ℕ → List (List ℚ) → List ℚ → List ℚ → ℚ
  lstmLearn : ℕ → ℕ → ℚ → ℕ → ℕ → List (List ℚ) → List ℚ → List ℚ → ℚ

/-- The `futures` dict (lines 180-185): the four adapter invocations, in
insertion order, each holding either the forecast or the exception that
`future.result()` will re-raise. -/
def adapterResults (L : AppLibs) (C : AppConfig) (ts : List ℚ) :
    List (String × Except PyError (List ℚ)) :=
  [ ("ETS", run_ets_model L.etsFit ts C.trend C.seasonal C.damped_trend C.seasonal_periods)
  , ("ARIMA", run_arima_model L.sarimaxFit L.arimaFit ts C.p C.d C.q C.P C.D C.Q C.m
      C.use_seasonality)
  , ("XGBoost", run_xgboost_model L.xgbLearn ts C.lags C.learning_rate C.n_estimators
      C.max_depth)
  , ("LSTM", run_lstm_model L.lstmLearn ts C.lags C.lstm_units C.lstm_layers C.dropout
      C.epochs C.batch_size) ]

/-- Line 189, `calculate_metrics(time_series[-12:], future.result())`:
`future.result()` re-raises the adapter's exception, and `calculate_metrics`
itself may raise; either exception reaches the surrounding `except`. -/
def scoreOne (holdout : List ℚ) (r : Except PyError (List ℚ)) : Except PyError MetricSet :=
  match r with
  | Except.error e => Except.error e
  | Except.ok f => calculate_metrics holdout f

/-- The result-collection loop body (lines 187-192), with the first argument
of `calculate_metrics` (`time_series[-12:]`) passed in explicitly: each method
either lands in the `results` dict with its metric set, or its name is
appended to the list of methods for which an `st.error` message was shown. -/
def collectGo (holdout : List ℚ) :
    List (String × Except PyError (List ℚ)) → List (String × MetricSet) × List String
  | [] => ([], [])
  | (nm, r) :: rest =>
    match scoreOne holdout r with
    | Except.ok mset => ((nm, mset) :: (collectGo holdout rest).1, (collectGo holdout rest).2)
    | Except.error _ => ((collectGo holdout rest).1, nm :: (collectGo holdout rest).2)

/-- The result-collection loop (lines 187-192); `time_series[-12:]` is
`drop (length - 12)`. -/
def collectLoop (ts : List ℚ) (rs : List (String × Except PyError (List ℚ))) :
    List (String × MetricSet) × List String :=
  collectGo (ts.drop (ts.length - 12)) rs

/-- What a Run Forecast invocation leaves behind when it finishes: the
`results` dict (rendered as the metrics table, line 222), the per-method
failure messages shown by `st.error`, and the plotted forecast curves
(lines 200-208). -/
structure RunOutcome where
  results : List (String × MetricSet)
  errors : List String
  forecasts : List (String × List ℚ)
  deriving DecidableEq, Repr

/-- The Run Forecast handler (lines 173-226).  The futures dict (the scoring
round of adapter invocations) runs against the library behaviour `Lscore`;
the plotting dict (lines 200-205) then invokes every fit a SECOND time with
the same arguments and no `try` around it.  Because the trainings are
unseeded, that second round is an independent library behaviour `Lplot` —
nothing in the program makes the two rounds agree.  An adapter failure in the
second round propagates uncaught and aborts the handler before the metrics
table is rendered. -/
def runForecast (Lscore Lplot : AppLibs) (C : AppConfig) (ts : List ℚ) :
    Except PyError RunOutcome :=
  let collected := collectLoop ts (adapterResults Lscore C ts)
  match run_ets_model Lplot.etsFit ts C.trend C.seasonal C.damped_trend
      C.seasonal_periods with
  | Except.error e => Except.error e
  | Except.ok etsF =>
    match run_arima_model Lplot.sarimaxFit Lplot.arimaFit ts C.p C.d C.q C.P C.D C.Q C.m
        C.use_seasonality with
    | Except.error e => Except.error e
    | Except.ok arimaF =>
      match run_xgboost_model Lplot.xgbLearn ts C.lags C.learning_rate C.n_estimators
          C.max_depth with
      | Except.error e => Except.error e
      | Except.ok xgbF =>
        match run_lstm_model Lplot.lstmLearn ts C.lags C.lstm_units C.lstm_layers
            C.dropout C.epochs C.batch_size with
        | Except.error e => Except.error e
        | Except.ok lstmF =>
          Except.ok
            { results := collected.1
            , errors := collected.2
            , forecasts :=
                [ ("ETS Forecast", etsF), ("ARIMA Forecast", arimaF)
                , ("XGBoost Forecast", xgbF), ("LSTM Forecast", lstmF) ] }

/-- A fitted model that forecasts the constant 1 at every step. -/
def constModel : ℕ → ℚ := fun _ => 1

/-- A deterministic ETS library behaviour: the fit always succeeds and the
fitted model forecasts the constant 1. -/
def etsFitConst : List ℚ → Option String → Option String → ℕ → Bool →
    Except PyError (ℕ → ℚ) := fun _ _ _ _ _ => Except.ok constModel

/-- A deterministic ETS library behaviour: the fit always raises, as
statsmodels does on a configuration incompatible with the series. -/
def etsFitFail : List ℚ → Option String → Option String → ℕ → Bool →
    Except PyError (ℕ → ℚ) := fun _ _ _ _ _ => Except.error PyError.modelFitError

/-- A deterministic SARIMAX library behaviour: always fits, forecasts 1. -/
def sarimaxFitConst : List ℚ → ℕ × ℕ × ℕ → ℕ × ℕ × ℕ × ℕ →
    Except PyError (ℕ → ℚ) := fun _ _ _ => Except.ok constModel

/-- A deterministic ARIMA library behaviour: always fits, forecasts 1. -/
def arimaFitConst : List ℚ → ℕ × ℕ × ℕ → Except PyError (ℕ → ℚ) :=
  fun _ _ => Except.ok constModel

/-- A deterministic learned xgboost regressor: predicts 1 on every row. -/
def xgbLearnConst : ℚ → ℕ → ℕ → List (List ℚ) → List ℚ → List ℚ → ℚ :=
  fun _ _ _ _ _ _ => 1

/-- A deterministic trained keras network: predicts 1 on every row. -/
def lstmLearnConst : ℕ → ℕ → ℚ → ℕ → ℕ → List (List ℚ) → List ℚ → List ℚ → ℚ :=
  fun _ _ _ _ _ _ _ _ => 1

/-- Library instantiation in which all four fits succeed deterministically. -/
def libsAllOk : AppLibs :=
  { etsFit := etsFitConst, sarimaxFit := sarimaxFitConst, arimaFit := arimaFitConst
  , xgbLearn := xgbLearnConst, lstmLearn := lstmLearnConst }

/-- Library instantiation in which exactly the ETS fit fails
deterministically (an invalid ETS configuration) and the other three
succeed. -/
def libsEtsFails : AppLibs :=
  { etsFit := etsFitFail, sarimaxFit := sarimaxFitConst, arimaFit := arimaFitConst
  , xgbLearn := xgbLearnConst, lstmLearn := lstmLearnConst }

/-- A concrete sidebar configuration (all values reachable from the widgets
of lines 104-137), with seasonality off and `lags = 1`. -/
def defaultConfig : AppConfig :=
  { trend := "add", seasonal := "add", damped_trend := false, seasonal_periods := 12
  , p := 1, d := 1, q := 1, P := 0, D := 0, Q := 0, m := 1, use_seasonality := false
  , lags := 1, learning_rate := 1, n_estimators := 100, max_depth := 6
  , lstm_units := 50, lstm_layers := 1, dropout := 0, epochs := 10, batch_size := 32 }

/-- A concrete input series of 14 observations, long enough for every adapter
at `lags = 1`. -/
def seriesFourteen : List ℚ := [1, 1, 1, 1, 1, 1, 1, 1, 1, 1, 1, 1, 1, 1]

/-- Twelve ones: the forecast every constant oracle produces. -/
def onesTwelve : List ℚ := [1, 1, 1, 1, 1, 1, 1, 1, 1, 1, 1, 1]

/-- The metric set of a perfect forecast. -/
def zeroMetrics : MetricSet := { mse := 0, mae := 0, smape := 0 }

instance {ε α : Type} [DecidableEq ε] [DecidableEq α] : DecidableEq (Except ε α) := fun a b =>
  match a, b with
  | Except.ok x, Except.ok y =>
    if h : x = y then isTrue (by rw [h]) else isFalse (by intro hc; cases hc; exact h rfl)
  | Except.error x, Except.error y =>
    if h : x = y then isTrue (by rw [h]) else isFalse (by intro hc; cases hc; exact h rfl)
  | Except.ok _, Except.error _ => isFalse (by intro hc; cases hc)
  | Except.error _, Except.ok _ => isFalse (by intro hc; cases hc)


/-- One deterministic behaviour of the statsmodels ETS fit whose fitted model
forecasts an observation lying inside the holdout tail (`ts[12]`).  Since line
48 hands the full `time_series` to `ExponentialSmoothing`, the adapter's
output can depend on the withheld tail under such a library behaviour. -/
def etsProbe : List ℚ → Option String → Option String → ℕ → Bool →
    Except PyError (ℕ → ℚ) := fun ts _ _ _ _ => Except.ok (fun _ => ts.getD 12 0)

/-- Thirteen zeros: agrees with `seriesThirteenMixed` on everything before the
holdout tail (`series[:-12]` = `[0]`). -/
def seriesThirteenZeros : List ℚ := [0, 0, 0, 0, 0, 0, 0, 0, 0, 0, 0, 0, 0]

/-- A zero followed by twelve ones: same `series[:-12]` as
`seriesThirteenZeros`, different holdout tail. -/
def seriesThirteenMixed : List ℚ := [0, 1, 1, 1, 1, 1, 1, 1, 1, 1, 1, 1, 1]

/-- Ten observations: shorter than `lags + horizon` for `lags = 5`. -/
def seriesTen : List ℚ := [1, 1, 1, 1, 1, 1, 1, 1, 1, 1]

/-- Seventeen observations: exactly `lags + horizon` long for `lags = 5`. -/
def seriesSeventeen : List ℚ := [1, 1, 1, 1, 1, 1, 1, 1, 1, 1, 1, 1, 1, 1, 1, 1, 1]

/-- Same length and same `series[:-12]` as `seriesFourteen`, different
holdout tail. -/
def seriesFourteenAlt : List ℚ := [1, 1, 9, 9, 9, 9, 9, 9, 9, 9, 9, 9, 9, 9]

/-- Thirteen observations whose last twelve agree with `tsTailB`. -/
def tsTailA : List ℚ := [0, 1, 1, 1, 1, 1, 1, 1, 1, 1, 1, 1, 1]

/-- Thirteen observations whose last twelve agree with `tsTailA`. -/
def tsTailB : List ℚ := [5, 1, 1, 1, 1, 1, 1, 1, 1, 1, 1, 1, 1]

/-- Modelled from the spec sentence, as amended by lines 25-29 of the source:
RMSE (via its radicand), MAE and SMAPE are all computed pointwise on the
epsilon-substituted sequences — the substitution is not limited to the
ratio-based metric. -/
def evaluateOnSubstituted (a p : List ℚ) : MetricSet :=
  { mse := (∑ i ∈ Finset.range a.length,
      (epsSub (a.getD i 0) - epsSub (p.getD i 0)) ^ 2) / (a.length : ℚ)
  , mae := (∑ i ∈ Finset.range a.length,
      |epsSub (a.getD i 0) - epsSub (p.getD i 0)|) / (a.length : ℚ)
  , smape := 100 * ((∑ i ∈ Finset.range a.length,
      2 * |epsSub (a.getD i 0) - epsSub (p.getD i 0)| /
        (|epsSub (a.getD i 0)| + |epsSub (p.getD i 0)|)) / (a.length : ℚ)) }

/-- The outcome of a fully successful run on `seriesFourteen` with the
constant oracles. -/
def outcomeAllOk : RunOutcome :=
  { results := [("ETS", zeroMetrics), ("ARIMA", zeroMetrics), ("XGBoost", zeroMetrics),
      ("LSTM", zeroMetrics)]
  , errors := []
  , forecasts := [("ETS Forecast", onesTwelve), ("ARIMA Forecast", onesTwelve),
      ("XGBoost Forecast", onesTwelve), ("LSTM Forecast", onesTwelve)] }

/-- Twelve twos: the forecast of the alternative trained network. -/
def twosTwelve : List ℚ := [2, 2, 2, 2, 2, 2, 2, 2, 2, 2, 2, 2]

/-- Another possible outcome of the unseeded keras training: a fresh fit of
the same architecture with the same hyperparameters on the same data whose
random weight initialization landed elsewhere, predicting 2 on every row. -/
def lstmLearnAlt : ℕ → ℕ → ℚ → ℕ → ℕ → List (List ℚ) → List ℚ → List ℚ → ℚ :=
  fun _ _ _ _ _ _ _ _ => 2

/-- A plotting-round library behaviour that agrees with `libsAllOk` on the
deterministic fits but whose re-trained LSTM landed on different weights. -/
def libsLstmRetrained : AppLibs :=
  { etsFit := etsFitConst, sarimaxFit := sarimaxFitConst, arimaFit := arimaFitConst
  , xgbLearn := xgbLearnConst, lstmLearn := lstmLearnAlt }

/-- The outcome of the run on `seriesFourteen` whose scoring round behaves as
`libsAllOk` and whose plotting round behaves as `libsLstmRetrained`. -/
def outcomeLstmRetrained : RunOutcome :=
  { results := [("ETS", zeroMetrics), ("ARIMA", zeroMetrics), ("XGBoost", zeroMetrics),
      ("LSTM", zeroMetrics)]
  , errors := []
  , forecasts := [("ETS Forecast", onesTwelve), ("ARIMA Forecast", onesTwelve),
      ("XGBoost Forecast", onesTwelve), ("LSTM Forecast", twosTwelve)] }

/-! ### Helper lemmas -/

theorem epsSub_ne_zero (x : ℚ) : epsSub x ≠ 0 := by
  unfold epsSub
  split
  · norm_num
  · assumption

theorem listMean_nonneg {l : List ℚ} (h : ∀ x ∈ l, 0 ≤ x) : 0 ≤ listMean l :=
  div_nonneg (List.sum_nonneg h) (by positivity)

theorem listMean_le_of_le {l : List ℚ} {c : ℚ} (hne : l ≠ []) (h : ∀ x ∈ l, x ≤ c) :
    listMean l ≤ c := by
  have hlen : 0 < (l.length : ℚ) := by
    exact_mod_cast List.length_pos.mpr hne
  rw [listMean, div_le_iff₀ hlen]
  calc l.sum ≤ l.length • c := List.sum_le_card_nsmul l c h
  _ = c * (l.length : ℚ) := by rw [nsmul_eq_mul]; ring

theorem zip_map_sum (f : ℚ → ℚ → ℚ) :
    ∀ (a p : List ℚ), a.length = p.length →
      ((a.zip p).map (fun x => f x.1 x.2)).sum
        = ∑ i ∈ Finset.range a.length, f (a.getD i 0) (p.getD i 0)
  | [], [], _ => by simp
  | [], _ :: _, h => by simp at h
  | _ :: _, [], h => by simp at h
  | x :: xs, y :: ys, h => by
    have ih := zip_map_sum f xs ys (by simpa using h)
    simp only [List.zip_cons_cons, List.map_cons, List.sum_cons, List.length_cons]
    rw [Finset.sum_range_succ']
    simp only [List.getD_cons_succ, List.getD_cons_zero]
    rw [ih]
    ring

theorem getD_map_epsSub (l : List ℚ) (i : ℕ) (hi : i < l.length) :
    (l.map epsSub).getD i 0 = epsSub (l.getD i 0) := by
  rw [List.getD_eq_getElem?_getD, List.getD_eq_getElem?_getD, List.getElem?_map,
    List.getElem?_eq_getElem hi]
  simp

theorem getD_take_of_lt {j k : ℕ} (hj : j < k) (l : List ℚ) :
    (l.take k).getD j 0 = l.getD j 0 := by
  simp only [List.getD_eq_getElem?_getD, List.getElem?_take]
  rw [if_pos hj]

theorem lagMatrix_length (ts : List ℚ) (lags : ℕ) :
    (lagMatrix ts lags).length = ts.length - lags := by
  simp [lagMatrix]

theorem lagMatrix_take_eq {s1 s2 : List ℚ} (lags : ℕ)
    (hlen : s1.length = s2.length)
    (key : ∀ j, j < s1.length - 12 → s1.getD j 0 = s2.getD j 0) :
    (lagMatrix s1 lags).take ((lagMatrix s1 lags).length - 12)
      = (lagMatrix s2 lags).take ((lagMatrix s2 lags).length - 12) := by
  rw [lagMatrix_length, lagMatrix_length, ← hlen]
  apply List.ext_getElem?
  intro k
  by_cases hk : k < s1.length - lags - 12
  · rw [List.getElem?_take, if_pos hk, List.getElem?_take, if_pos hk]
    unfold lagMatrix
    rw [List.getElem?_map, List.getElem?_map, List.getElem?_drop, List.getElem?_drop, ← hlen]
    have hkn : lags + k < s1.length := by omega
    rw [List.getElem?_range hkn]
    simp only [Option.map_some']
    congr 1
    apply List.map_congr_left
    intro i hi
    have hi2 : i < lags := List.mem_range.mp hi
    exact key (lags + k - (i + 1)) (by omega)
  · rw [List.getElem?_take, if_neg hk, List.getElem?_take, if_neg hk]

theorem drop_take_eq {s1 s2 : List ℚ} (lags : ℕ)
    (hlen : s1.length = s2.length)
    (key : ∀ j, j < s1.length - 12 → s1.getD j 0 = s2.getD j 0) :
    (s1.drop lags).take ((s1.drop lags).length - 12)
      = (s2.drop lags).take ((s2.drop lags).length - 12) := by
  rw [List.length_drop, List.length_drop, ← hlen]
  apply List.ext_getElem?
  intro k
  by_cases hk : k < s1.length - lags - 12
  · rw [List.getElem?_take, if_pos hk, List.getElem?_take, if_pos hk,
      List.getElem?_drop, List.getElem?_drop]
    have h1 : lags + k < s1.length := by omega
    have h2 : lags + k < s2.length := by omega
    rw [List.getElem?_eq_getElem h1, List.getElem?_eq_getElem h2]
    have hkey := key (lags + k) (by omega)
    rw [List.getD_eq_getElem?_getD, List.getD_eq_getElem?_getD,
      List.getElem?_eq_getElem h1, List.getElem?_eq_getElem h2] at hkey
    simpa using hkey
  · rw [List.getElem?_take, if_neg hk, List.getElem?_take, if_neg hk]

theorem lagTrainData_eq_of_take_eq {s1 s2 : List ℚ} (lags : ℕ)
    (hlen : s1.length = s2.length)
    (htake : s1.take (s1.length - 12) = s2.take (s2.length - 12)) :
    lagTrainData s1 lags = lagTrainData s2 lags := by
  rw [← hlen] at htake
  have key : ∀ j, j < s1.length - 12 → s1.getD j 0 = s2.getD j 0 := by
    intro j hj
    calc s1.getD j 0 = (s1.take (s1.length - 12)).getD j 0 := (getD_take_of_lt hj s1).symm
    _ = (s2.take (s1.length - 12)).getD j 0 := by rw [htake]
    _ = s2.getD j 0 := getD_take_of_lt hj s2
  simp only [lagTrainData]
  exact Prod.ext (lagMatrix_take_eq lags hlen key) (drop_take_eq lags hlen key)

theorem collectGo_outcome (holdout : List ℚ) :
    ∀ rs : List (String × Except PyError (List ℚ)),
      ((collectGo holdout rs).1.length + (collectGo holdout rs).2.length = rs.length) ∧
      ∀ nm r, (nm, r) ∈ rs →
        nm ∈ (collectGo holdout rs).1.map Prod.fst ∨ nm ∈ (collectGo holdout rs).2
  | [] => by simp [collectGo]
  | (nm0, r0) :: rest => by
    have ih := collectGo_outcome holdout rest
    cases hm : scoreOne holdout r0 with
    | ok mset =>
      constructor
      · simp only [collectGo, hm, List.length_cons]
        omega
      · intro nm r hmem
        rcases List.mem_cons.mp hmem with heq | htail
        · left
          simp only [collectGo, hm, List.map_cons, List.mem_cons]
          left
          exact congrArg Prod.fst heq
        · rcases ih.2 nm r htail with hres | herr
          · left
            simp only [collectGo, hm, List.map_cons, List.mem_cons]
            right
            exact hres
          · right
            simp only [collectGo, hm]
            exact herr
    | error e =>
      constructor
      · simp only [collectGo, hm, List.length_cons]
        omega
      · intro nm r hmem
        rcases List.mem_cons.mp hmem with heq | htail
        · right
          simp only [collectGo, hm, List.mem_cons]
          left
          exact congrArg Prod.fst heq
        · rcases ih.2 nm r htail with hres | herr
          · left
            simp only [collectGo, hm]
            exact hres
          · right
            simp only [collectGo, hm, List.mem_cons]
            right
            exact herr

theorem calculate_metrics_expand (f : ℚ → ℚ → ℚ) (a p : List ℚ)
    (hlen : a.length = p.length) :
    listMean (((a.map epsSub).zip (p.map epsSub)).map (fun x => f x.1 x.2))
      = (∑ i ∈ Finset.range a.length, f (epsSub (a.getD i 0)) (epsSub (p.getD i 0)))
        / (a.length : ℚ) := by
  have hmap : (a.map epsSub).length = (p.map epsSub).length := by simp [hlen]
  have hlen2 : ((((a.map epsSub)).zip (p.map epsSub)).map (fun x => f x.1 x.2)).length
      = a.length := by
    simp [hlen]
  rw [listMean, hlen2, zip_map_sum f _ _ hmap, List.length_map]
  congr 1
  apply Finset.sum_congr rfl
  intro i hi
  have hia : i < a.length := Finset.mem_range.mp hi
  rw [getD_map_epsSub a i hia, getD_map_epsSub p i (hlen ▸ hia)]

/-! ### Claim theorems -/

/-- C6 counterexample.  At the concrete input `actual = [0,0,0]`,
`predicted = [1,1,1]`, the code returns MAE = 1 - 1e-6, not the mean absolute
error of the inputs as given (which is 1): the epsilon substitution is applied
before MAE (and RMSE), not only before the ratio-based metric. -/
theorem mae_computed_on_substituted_values :
    (calculate_metrics [0, 0, 0] [1, 1, 1]).map MetricSet.mae
      = Except.ok (999999 / 1000000) ∧ (999999 / 1000000 : ℚ) ≠ 1 := by
  constructor
  · norm_num [calculate_metrics, epsSub, listMean, abs_of_nonneg, Except.map]
  · norm_num

/-- C6 (amended).  For every equal-length, non-empty pair of input sequences,
`calculate_metrics` returns exactly the metric set computed pointwise on the
epsilon-substituted sequences: the zero-to-1e-6 substitution is applied to
both inputs before the squared-error, absolute-error and symmetric-percentage
metrics alike. -/
theorem all_metrics_on_substituted_values (a p : List ℚ)
    (hlen : a.length = p.length) (hne : a ≠ []) :
    calculate_metrics a p = Except.ok (evaluateOnSubstituted a p) := by
  have hmap : (a.map epsSub).length = (p.map epsSub).length := by simp [hlen]
  have hnz : (a.map epsSub).length ≠ 0 := by
    simp only [List.length_map]
    intro h0
    exact hne (List.length_eq_zero.mp h0)
  have e1 := calculate_metrics_expand (fun u v => (u - v) ^ 2) a p hlen
  have e2 := calculate_metrics_expand (fun u v => |u - v|) a p hlen
  have e3 := calculate_metrics_expand (fun u v => 2 * |u - v| / (|u| + |v|)) a p hlen
  unfold calculate_metrics
  rw [if_pos ⟨hmap, hnz⟩]
  simp only [evaluateOnSubstituted, e1, e2, e3]

/-- C6 witness: the amended theorem at the concrete input `[0,2]`, `[1,2]`. -/
theorem all_metrics_on_substituted_values_witness :
    ([0, 2] : List ℚ).length = ([1, 2] : List ℚ).length ∧
    calculate_metrics [0, 2] [1, 2] = Except.ok (evaluateOnSubstituted [0, 2] [1, 2]) :=
  ⟨rfl, all_metrics_on_substituted_values [0, 2] [1, 2] rfl (by simp)⟩

/-- C7 counterexample.  On a length mismatch (or empty inputs) the code fails
with the untyped library ValueError, not with a typed DimensionMismatch: no
such error exists anywhere in the program. -/
theorem length_mismatch_error_is_untyped :
    calculate_metrics [1] [1, 2] = Except.error PyError.valueError ∧
    calculate_metrics ([] : List ℚ) [] = Except.error PyError.valueError ∧
    calculate_metrics [1] [1, 2] ≠ Except.error PyError.dimensionMismatch := by
  refine ⟨by decide, by decide, by decide⟩

/-- C7 (amended).  For every pair of input sequences whose lengths differ, or
where either sequence is empty, `calculate_metrics` fails loudly — but with
the untyped ValueError raised by the metrics library, not with a typed
DimensionMismatch (which the program never defines); it does not silently
coerce the inputs. -/
theorem bad_inputs_fail_loudly (a p : List ℚ)
    (h : a.length ≠ p.length ∨ a = [] ∨ p = []) :
    calculate_metrics a p = Except.error PyError.valueError := by
  unfold calculate_metrics
  rw [if_neg]
  rintro ⟨h1, h2⟩
  simp only [List.length_map] at h1 h2
  rcases h with hm | ha | hp
  · exact hm h1
  · subst ha
    exact h2 rfl
  · subst hp
    simp only [List.length_nil] at h1
    exact h2 h1

/-- C7 witness: the amended theorem at the concrete input `[3]`, `[4,5]`. -/
theorem bad_inputs_fail_loudly_witness :
    calculate_metrics [3] [4, 5] = Except.error PyError.valueError :=
  bad_inputs_fail_loudly [3] [4, 5] (Or.inl (by simp))

/-- C8 (confirmed).  For every equal-length, non-empty pair of input
sequences, `calculate_metrics` succeeds and the returned values satisfy
RMSE = sqrt(mse) ≥ 0 (with mse ≥ 0, so the root is real), MAE ≥ 0, and
0 ≤ SMAPE ≤ 200. -/
theorem metric_bounds (a p : List ℚ) (hlen : a.length = p.length) (hne : a ≠ []) :
    ∃ mset, calculate_metrics a p = Except.ok mset ∧
      0 ≤ mset.mse ∧ 0 ≤ Real.sqrt mset.mse ∧ 0 ≤ mset.mae ∧
      0 ≤ mset.smape ∧ mset.smape ≤ 200 := by
  have hmap : (a.map epsSub).length = (p.map epsSub).length := by simp [hlen]
  have hnz : (a.map epsSub).length ≠ 0 := by
    simp only [List.length_map]
    intro h0
    exact hne (List.length_eq_zero.mp h0)
  unfold calculate_metrics
  rw [if_pos ⟨hmap, hnz⟩]
  refine ⟨_, rfl, ?_, Real.sqrt_nonneg _, ?_, ?_, ?_⟩
  · apply listMean_nonneg
    intro x hx
    rcases List.mem_map.mp hx with ⟨q, _, rfl⟩
    exact sq_nonneg _
  · apply listMean_nonneg
    intro x hx
    rcases List.mem_map.mp hx with ⟨q, _, rfl⟩
    exact abs_nonneg _
  · apply mul_nonneg (by norm_num)
    apply listMean_nonneg
    intro x hx
    rcases List.mem_map.mp hx with ⟨q, _, rfl⟩
    exact div_nonneg (by positivity) (by positivity)
  · have hne2 : ((a.map epsSub).zip (p.map epsSub)).map
        (fun x => 2 * |x.1 - x.2| / (|x.1| + |x.2|)) ≠ [] := by
      have hpos : 0 < (((a.map epsSub).zip (p.map epsSub)).map
          (fun x => 2 * |x.1 - x.2| / (|x.1| + |x.2|))).length := by
        have hlen3 : (((a.map epsSub).zip (p.map epsSub)).map
            (fun x => 2 * |x.1 - x.2| / (|x.1| + |x.2|))).length = a.length := by
          simp [hlen]
        rw [hlen3]
        exact List.length_pos.mpr hne
      exact List.length_pos.mp hpos
    have hmean : listMean (((a.map epsSub).zip (p.map epsSub)).map
        (fun x => 2 * |x.1 - x.2| / (|x.1| + |x.2|))) ≤ 2 := by
      apply listMean_le_of_le hne2
      intro x hx
      rcases List.mem_map.mp hx with ⟨q, hq, rfl⟩
      have hq1 : q.1 ∈ a.map epsSub := (List.of_mem_zip hq).1
      have hq2 : q.2 ∈ p.map epsSub := (List.of_mem_zip hq).2
      rcases List.mem_map.mp hq1 with ⟨u, _, hu⟩
      rcases List.mem_map.mp hq2 with ⟨v, _, hv⟩
      have h1 : q.1 ≠ 0 := hu ▸ epsSub_ne_zero u
      have hpos : 0 < |q.1| + |q.2| :=
        add_pos_of_pos_of_nonneg (abs_pos.mpr h1) (abs_nonneg _)
      rw [div_le_iff₀ hpos]
      have htri : |q.1 - q.2| ≤ |q.1| + |q.2| := abs_sub q.1 q.2
      nlinarith [abs_nonneg (q.1 - q.2)]
    calc 100 * listMean (((a.map epsSub).zip (p.map epsSub)).map
        (fun x => 2 * |x.1 - x.2| / (|x.1| + |x.2|)))
        ≤ 100 * 2 := by
          apply mul_le_mul_of_nonneg_left hmean (by norm_num)
    _ = 200 := by norm_num

/-- C8 witness: the theorem at the concrete input `[1,2]`, `[3,5]`. -/
theorem metric_bounds_witness :
    ∃ mset, calculate_metrics [1, 2] [3, 5] = Except.ok mset ∧
      0 ≤ mset.mse ∧ 0 ≤ Real.sqrt mset.mse ∧ 0 ≤ mset.mae ∧
      0 ≤ mset.smape ∧ mset.smape ≤ 200 :=
  metric_bounds [1, 2] [3, 5] rfl (by simp)

/-- C9 (confirmed).  `calculate_metrics([0,0,0],[0,0,0])` raises nothing —
after the epsilon substitution no division by zero occurs — and returns
SMAPE = 0 (and MSE = MAE = 0), not NaN. -/
theorem all_zero_pair_returns_zero_smape :
    calculate_metrics [0, 0, 0] [0, 0, 0] = Except.ok zeroMetrics := by
  norm_num [calculate_metrics, epsSub, listMean, zeroMetrics]

/-- C2 counterexample.  The ETS adapter does not fit on at most
`series[:-12]`: under a deterministic library behaviour (`etsProbe`), two
series that agree on `series[:-12]` — thirteen zeros versus a zero followed
by twelve ones — produce different forecasts, because line 48 hands the full
series, holdout tail included, to the fit. -/
theorem ets_adapter_fit_depends_on_holdout :
    seriesThirteenZeros.take (seriesThirteenZeros.length - 12)
      = seriesThirteenMixed.take (seriesThirteenMixed.length - 12) ∧
    run_ets_model etsProbe seriesThirteenZeros "add" "add" false 12
      ≠ run_ets_model etsProbe seriesThirteenMixed "add" "add" false 12 := by
  refine ⟨by decide, by decide⟩

/-- C2 (amended).  The scoring side holds as claimed: the collection loop
compares forecasts against `series[-12:]` only (its outcome depends on the
series only through that tail).  The fitting side holds only for the
lag-based adapters: the XGBoost/LSTM training data is determined by
`series[:-12]`; the ETS and ARIMA adapters instead fit on the full series,
holdout tail included (see the counterexample). -/
theorem scoring_uses_tail_and_lag_training_uses_head :
    (∀ (ts1 ts2 : List ℚ) rs,
        ts1.drop (ts1.length - 12) = ts2.drop (ts2.length - 12) →
        collectLoop ts1 rs = collectLoop ts2 rs) ∧
    (∀ (s1 s2 : List ℚ) (lags : ℕ), s1.length = s2.length →
        s1.take (s1.length - 12) = s2.take (s2.length - 12) →
        lagTrainData s1 lags = lagTrainData s2 lags) := by
  constructor
  · intro ts1 ts2 rs h
    unfold collectLoop
    rw [h]
  · intro s1 s2 lags hlen htake
    exact lagTrainData_eq_of_take_eq lags hlen htake

/-- C2 witness: the amended theorem at concrete inputs — two series sharing
the last-12 tail score identically, and two series sharing `series[:-12]`
yield identical lag-training data. -/
theorem scoring_uses_tail_and_lag_training_uses_head_witness :
    collectLoop tsTailA [("ETS", Except.ok onesTwelve)]
      = collectLoop tsTailB [("ETS", Except.ok onesTwelve)] ∧
    lagTrainData seriesFourteen 5 = lagTrainData seriesFourteenAlt 5 :=
  ⟨scoring_uses_tail_and_lag_training_uses_head.1 tsTailA tsTailB
      [("ETS", Except.ok onesTwelve)] (by decide),
   scoring_uses_tail_and_lag_training_uses_head.2 seriesFourteen seriesFourteenAlt 5
      (by decide) (by decide)⟩

/-- C4 counterexample.  With `len(series) = 10 ≤ lags + horizon = 17`, both
lag-based adapters fail with the library's untyped error (the empty training
set is rejected by the library fit), not with a typed InsufficientData — the
program never defines such an error. -/
theorem short_series_error_is_untyped :
    run_xgboost_model xgbLearnConst seriesTen 5 1 100 6
      = Except.error PyError.valueError ∧
    run_xgboost_model xgbLearnConst seriesTen 5 1 100 6
      ≠ Except.error PyError.insufficientData ∧
    run_lstm_model lstmLearnConst seriesTen 5 50 1 0 10 32
      = Except.error PyError.valueError ∧
    run_lstm_model lstmLearnConst seriesTen 5 50 1 0 10 32
      ≠ Except.error PyError.insufficientData := by
  refine ⟨by decide, by decide, by decide, by decide⟩

/-- C4 (amended).  For every input series and configuration with
`len(series) ≤ lags + horizon`, each lag-based adapter fails — window
construction leaves an empty training set, which the library fit rejects —
so there is no silent truncation; but the failure is the library's untyped
error, not a typed InsufficientData. -/
theorem short_series_fails_loudly
    (xgbLearn : ℚ → ℕ → ℕ → List (List ℚ) → List ℚ → List ℚ → ℚ)
    (lstmLearn : ℕ → ℕ → ℚ → ℕ → ℕ → List (List ℚ) → List ℚ → List ℚ → ℚ)
    (ts : List ℚ) (lags : ℕ) (lr : ℚ) (nEst maxD lstmU lstmL : ℕ) (dr : ℚ)
    (ep bs : ℕ) (hlen : ts.length ≤ lags + 12) :
    run_xgboost_model xgbLearn ts lags lr nEst maxD = Except.error PyError.valueError ∧
    run_lstm_model lstmLearn ts lags lstmU lstmL dr ep bs
      = Except.error PyError.valueError := by
  have hX : (lagTrainData ts lags).1 = [] := by
    have hlm := lagMatrix_length ts lags
    simp only [lagTrainData]
    have h0 : (lagMatrix ts lags).length - 12 = 0 := by omega
    rw [h0, List.take_zero]
  constructor
  · unfold run_xgboost_model xgbLibraryFit
    rw [hX]
    simp
  · unfold run_lstm_model kerasLibraryFit
    rw [hX]
    simp

/-- C4 witness: the amended theorem at the boundary input
`len(series) = 17 = lags + horizon` with `lags = 5`. -/
theorem short_series_fails_loudly_witness :
    seriesSeventeen.length ≤ 5 + 12 ∧
    run_xgboost_model xgbLearnConst seriesSeventeen 5 1 100 6
      = Except.error PyError.valueError ∧
    run_lstm_model lstmLearnConst seriesSeventeen 5 50 1 0 10 32
      = Except.error PyError.valueError := by
  refine ⟨by decide, ?_, ?_⟩
  · exact (short_series_fails_loudly xgbLearnConst lstmLearnConst seriesSeventeen 5 1 100 6
      50 1 0 10 32 (by decide)).1
  · exact (short_series_fails_loudly xgbLearnConst lstmLearnConst seriesSeventeen 5 1 100 6
      50 1 0 10 32 (by decide)).2

/-- C5 (confirmed).  Every successful adapter invocation — any of the four
variants, any oracles, series and configuration — returns a forecast of
exactly 12 values: the statsmodels adapters take `forecast(steps=12)`, and
the lag-based adapters can only reach prediction when the training window was
non-empty, which forces `X[-12:]` to hold exactly 12 rows. -/
theorem successful_forecast_has_twelve_values :
    (∀ etsFit ts trend seasonal damped sp f,
        run_ets_model etsFit ts trend seasonal damped sp = Except.ok f →
          f.length = 12) ∧
    (∀ sarimaxFit arimaFit ts p d q P D Q m u f,
        run_arima_model sarimaxFit arimaFit ts p d q P D Q m u = Except.ok f →
          f.length = 12) ∧
    (∀ xgbLearn ts lags lr nEst maxD f,
        run_xgboost_model xgbLearn ts lags lr nEst maxD = Except.ok f →
          f.length = 12) ∧
    (∀ lstmLearn ts lags lstmU lstmL dr ep bs f,
        run_lstm_model lstmLearn ts lags lstmU lstmL dr ep bs = Except.ok f →
          f.length = 12) := by
  have hpredict : ∀ (ts : List ℚ) (lags : ℕ),
      (lagTrainData ts lags).1 ≠ [] → (lagPredictRows ts lags).length = 12 := by
    intro ts lags hne
    have h1 : (lagTrainData ts lags).1.length ≠ 0 := by
      intro h0
      exact hne (List.length_eq_zero.mp h0)
    simp only [lagTrainData, List.length_take] at h1
    have h13 : 13 ≤ (lagMatrix ts lags).length := by
      rcases Nat.eq_zero_or_pos (min ((lagMatrix ts lags).length - 12)
          (lagMatrix ts lags).length) with h | h
      · exact absurd h h1
      · have := Nat.min_le_left ((lagMatrix ts lags).length - 12) (lagMatrix ts lags).length
        omega
    simp only [lagPredictRows, List.length_drop]
    omega
  refine ⟨?_, ?_, ?_, ?_⟩
  · intro etsFit ts trend seasonal damped sp f h
    unfold run_ets_model at h
    cases hfit : etsFit ts (if trend = "none" then none else some trend)
        (if seasonal = "none" then none else some seasonal) sp damped with
    | error e => rw [hfit] at h; simp at h
    | ok fitted =>
      rw [hfit] at h
      simp only [Except.ok.injEq] at h
      rw [← h]
      simp
  · intro sarimaxFit arimaFit ts p d q P D Q m u f h
    unfold run_arima_model at h
    cases hfit : (if u then sarimaxFit ts (p, d, q) (P, D, Q, m)
        else arimaFit ts (p, d, q)) with
    | error e => rw [hfit] at h; simp at h
    | ok fitted =>
      rw [hfit] at h
      simp only [Except.ok.injEq] at h
      rw [← h]
      simp
  · intro xgbLearn ts lags lr nEst maxD f h
    unfold run_xgboost_model at h
    cases hfit : xgbLibraryFit (xgbLearn lr nEst maxD)
        (lagTrainData ts lags).1 (lagTrainData ts lags).2 with
    | error e => rw [hfit] at h; simp at h
    | ok model =>
      rw [hfit] at h
      simp only [Except.ok.injEq] at h
      rw [← h]
      unfold xgbLibraryFit at hfit
      by_cases hemp : (lagTrainData ts lags).1.isEmpty
      · rw [if_pos hemp] at hfit; simp at hfit
      · have hne : (lagTrainData ts lags).1 ≠ [] := by
          intro h0
          exact hemp (List.isEmpty_iff.mpr h0)
        rw [List.length_map]
        exact hpredict ts lags hne
  · intro lstmLearn ts lags lstmU lstmL dr ep bs f h
    unfold run_lstm_model at h
    cases hfit : kerasLibraryFit (lstmLearn lstmU lstmL dr ep bs)
        (lagTrainData ts lags).1 (lagTrainData ts lags).2 with
    | error e => rw [hfit] at h; simp at h
    | ok model =>
      rw [hfit] at h
      simp only [Except.ok.injEq] at h
      rw [← h]
      unfold kerasLibraryFit at hfit
      by_cases hemp : (lagTrainData ts lags).1.isEmpty
      · rw [if_pos hemp] at hfit; simp at hfit
      · have hne : (lagTrainData ts lags).1 ≠ [] := by
          intro h0
          exact hemp (List.isEmpty_iff.mpr h0)
        rw [List.length_map]
        exact hpredict ts lags hne

/-- C5 witness: each adapter succeeds on `seriesFourteen` at `lags = 1` with
the constant oracles, and the theorem yields length 12 from each success. -/
theorem successful_forecast_has_twelve_values_witness :
    (run_ets_model etsFitConst seriesFourteen "add" "add" false 12
      = Except.ok onesTwelve) ∧
    (run_arima_model sarimaxFitConst arimaFitConst seriesFourteen 1 1 1 0 0 0 1 false
      = Except.ok onesTwelve) ∧
    (run_xgboost_model xgbLearnConst seriesFourteen 1 1 100 6
      = Except.ok onesTwelve) ∧
    (run_lstm_model lstmLearnConst seriesFourteen 1 50 1 0 10 32
      = Except.ok onesTwelve) ∧
    onesTwelve.length = 12 := by
  refine ⟨by decide, by decide, by decide, by decide,
    successful_forecast_has_twelve_values.1 etsFitConst seriesFourteen "add" "add" false 12
      onesTwelve (by decide)⟩

/-- C1 (code bug).  With exactly one adapter (ETS) failing deterministically
(the same failure in both invocation rounds) and the other three succeeding,
the collection loop does catch the failure —
three successful metric entries and the one per-method failure record — but
the unguarded plotting recomputation (lines 200-205) re-raises the same
error, so the Run Forecast handler aborts instead of completing:
`runForecast` returns the error rather than a result set. -/
theorem single_adapter_failure_aborts_run :
    runForecast libsEtsFails libsEtsFails defaultConfig seriesFourteen
      = Except.error PyError.modelFitError ∧
    (collectLoop seriesFourteen (adapterResults libsEtsFails defaultConfig seriesFourteen)).1
      = [("ARIMA", zeroMetrics), ("XGBoost", zeroMetrics), ("LSTM", zeroMetrics)] ∧
    (collectLoop seriesFourteen (adapterResults libsEtsFails defaultConfig seriesFourteen)).2
      = ["ETS"] := by
  have hE : run_ets_model etsFitFail seriesFourteen "add" "add" false 12
      = Except.error PyError.modelFitError := by decide
  have hA : run_arima_model sarimaxFitConst arimaFitConst seriesFourteen 1 1 1 0 0 0 1 false
      = Except.ok onesTwelve := by decide
  have hX : run_xgboost_model xgbLearnConst seriesFourteen 1 1 100 6
      = Except.ok onesTwelve := by decide
  have hL : run_lstm_model lstmLearnConst seriesFourteen 1 50 1 0 10 32
      = Except.ok onesTwelve := by decide
  have hold : seriesFourteen.drop (seriesFourteen.length - 12) = onesTwelve := by decide
  have hm : calculate_metrics onesTwelve onesTwelve = Except.ok zeroMetrics := by
    norm_num [calculate_metrics, epsSub, listMean, onesTwelve, zeroMetrics]
  refine ⟨?_, ?_, ?_⟩
  · simp [runForecast, libsEtsFails, defaultConfig, hE]
  · simp [collectLoop, collectGo, scoreOne, adapterResults, libsEtsFails, defaultConfig,
      hE, hA, hX, hL, hold, hm]
  · simp [collectLoop, collectGo, scoreOne, adapterResults, libsEtsFails, defaultConfig,
      hE, hA, hX, hL, hold, hm]

/-- C3 counterexample.  At a concrete run in which ETS fails and the other
three adapters succeed, the returned results structure (the dict rendered as
the metrics table) has no entry at all for ETS — the failure is reported only
through a transient error message, not in the returned structure. -/
theorem failed_method_absent_from_results :
    "ETS" ∈ (adapterResults libsEtsFails defaultConfig seriesFourteen).map Prod.fst ∧
    "ETS" ∉ (collectLoop seriesFourteen
      (adapterResults libsEtsFails defaultConfig seriesFourteen)).1.map Prod.fst := by
  have hE : run_ets_model etsFitFail seriesFourteen "add" "add" false 12
      = Except.error PyError.modelFitError := by decide
  have hA : run_arima_model sarimaxFitConst arimaFitConst seriesFourteen 1 1 1 0 0 0 1 false
      = Except.ok onesTwelve := by decide
  have hX : run_xgboost_model xgbLearnConst seriesFourteen 1 1 100 6
      = Except.ok onesTwelve := by decide
  have hL : run_lstm_model lstmLearnConst seriesFourteen 1 50 1 0 10 32
      = Except.ok onesTwelve := by decide
  have hold : seriesFourteen.drop (seriesFourteen.length - 12) = onesTwelve := by decide
  have hm : calculate_metrics onesTwelve onesTwelve = Except.ok zeroMetrics := by
    norm_num [calculate_metrics, epsSub, listMean, onesTwelve, zeroMetrics]
  have hval : (collectLoop seriesFourteen
      (adapterResults libsEtsFails defaultConfig seriesFourteen)).1
      = [("ARIMA", zeroMetrics), ("XGBoost", zeroMetrics), ("LSTM", zeroMetrics)] := by
    simp [collectLoop, collectGo, scoreOne, adapterResults, libsEtsFails, defaultConfig,
      hE, hA, hX, hL, hold, hm]
  constructor
  · simp [adapterResults]
  · rw [hval]
    decide

/-- C3 (amended).  Every configured method yields exactly one outcome per
collection loop: the successful methods' entries and the failure records
together account for all methods (their counts add up to the number of
methods, and each method name lands in the results dict or in the list of
error messages).  However, the failure records are `st.error` messages, not
entries of the returned results structure — a failed method is absent from
the metrics table itself (see the counterexample) — and a results entry holds
only the metric set, never the forecast. -/
theorem every_method_results_or_error (ts : List ℚ)
    (rs : List (String × Except PyError (List ℚ))) :
    ((collectLoop ts rs).1.length + (collectLoop ts rs).2.length = rs.length) ∧
    ∀ nm r, (nm, r) ∈ rs →
      nm ∈ (collectLoop ts rs).1.map Prod.fst ∨ nm ∈ (collectLoop ts rs).2 := by
  unfold collectLoop
  exact collectGo_outcome (ts.drop (ts.length - 12)) rs

/-- C3 witness: the amended theorem applied to the ETS entry of a concrete
all-successful run. -/
theorem every_method_results_or_error_witness :
    (("ETS", Except.ok onesTwelve) ∈ adapterResults libsAllOk defaultConfig seriesFourteen) ∧
    ("ETS" ∈ (collectLoop seriesFourteen
        (adapterResults libsAllOk defaultConfig seriesFourteen)).1.map Prod.fst ∨
      "ETS" ∈ (collectLoop seriesFourteen
        (adapterResults libsAllOk defaultConfig seriesFourteen)).2) := by
  have hE : run_ets_model etsFitConst seriesFourteen "add" "add" false 12
      = Except.ok onesTwelve := by decide
  have hmem : ("ETS", Except.ok onesTwelve)
      ∈ adapterResults libsAllOk defaultConfig seriesFourteen := by
    simp [adapterResults, libsAllOk, defaultConfig, hE]
  exact ⟨hmem, (every_method_results_or_error seriesFourteen
    (adapterResults libsAllOk defaultConfig seriesFourteen)).2 "ETS"
    (Except.ok onesTwelve) hmem⟩

/-- C10 counterexample.  The claim's asserted equality fails on the code: the
scoring round's LSTM forecast is twelve ones, yet in the same run the
plotting round — a fresh, unseeded keras training with identical arguments —
may land on different weights (`libsLstmRetrained`), and then the handler
completes with a plotted LSTM curve of twelve twos: the plotted curve and the
scored forecast are not equal. -/
theorem plotted_lstm_differs_from_scored :
    ("LSTM", Except.ok onesTwelve) ∈ adapterResults libsAllOk defaultConfig seriesFourteen ∧
    runForecast libsAllOk libsLstmRetrained defaultConfig seriesFourteen
      = Except.ok outcomeLstmRetrained ∧
    ("LSTM Forecast", twosTwelve) ∈ outcomeLstmRetrained.forecasts ∧
    twosTwelve ≠ onesTwelve := by
  have hE : run_ets_model etsFitConst seriesFourteen "add" "add" false 12
      = Except.ok onesTwelve := by decide
  have hA : run_arima_model sarimaxFitConst arimaFitConst seriesFourteen 1 1 1 0 0 0 1 false
      = Except.ok onesTwelve := by decide
  have hX : run_xgboost_model xgbLearnConst seriesFourteen 1 1 100 6
      = Except.ok onesTwelve := by decide
  have hL : run_lstm_model lstmLearnConst seriesFourteen 1 50 1 0 10 32
      = Except.ok onesTwelve := by decide
  have hL2 : run_lstm_model lstmLearnAlt seriesFourteen 1 50 1 0 10 32
      = Except.ok twosTwelve := by decide
  have hold : seriesFourteen.drop (seriesFourteen.length - 12) = onesTwelve := by decide
  have hm : calculate_metrics onesTwelve onesTwelve = Except.ok zeroMetrics := by
    norm_num [calculate_metrics, epsSub, listMean, onesTwelve, zeroMetrics]
  refine ⟨?_, ?_, by decide, by decide⟩
  · simp [adapterResults, libsAllOk, defaultConfig, hL]
  · simp [runForecast, collectLoop, collectGo, scoreOne, adapterResults, libsAllOk,
      libsLstmRetrained, defaultConfig, outcomeLstmRetrained, hE, hA, hX, hL, hL2, hold, hm]

/-- C10 (amended).  Each method's forecast is indeed computed twice per run
with identical series and configuration — the plotted curves are exactly the
outputs of the second round of adapter invocations, while the scored metrics
come from the first round — and whenever the library behaves identically
across the two rounds the plotted curve equals the scored forecast.  But the
program does nothing to make the rounds agree (the keras training is
unseeded), so the equality holds only under that determinism assumption, not
unconditionally (see the counterexample). -/
theorem plotted_forecasts_from_second_invocation
    (Lscore Lplot : AppLibs) (C : AppConfig) (ts : List ℚ) (out : RunOutcome)
    (h : runForecast Lscore Lplot C ts = Except.ok out) :
    ∃ fe fa fx fl,
      adapterResults Lplot C ts =
        [("ETS", Except.ok fe), ("ARIMA", Except.ok fa),
         ("XGBoost", Except.ok fx), ("LSTM", Except.ok fl)] ∧
      out.forecasts = [("ETS Forecast", fe), ("ARIMA Forecast", fa),
        ("XGBoost Forecast", fx), ("LSTM Forecast", fl)] ∧
      out.results = (collectLoop ts (adapterResults Lscore C ts)).1 ∧
      out.errors = (collectLoop ts (adapterResults Lscore C ts)).2 ∧
      (Lscore = Lplot →
        adapterResults Lscore C ts =
          [("ETS", Except.ok fe), ("ARIMA", Except.ok fa),
           ("XGBoost", Except.ok fx), ("LSTM", Except.ok fl)]) := by
  cases hE : run_ets_model Lplot.etsFit ts C.trend C.seasonal C.damped_trend
      C.seasonal_periods with
  | error e => simp [runForecast, hE] at h
  | ok fe =>
    cases hA : run_arima_model Lplot.sarimaxFit Lplot.arimaFit ts C.p C.d C.q C.P C.D C.Q
        C.m C.use_seasonality with
    | error e => simp [runForecast, hE, hA] at h
    | ok fa =>
      cases hX : run_xgboost_model Lplot.xgbLearn ts C.lags C.learning_rate C.n_estimators
          C.max_depth with
      | error e => simp [runForecast, hE, hA, hX] at h
      | ok fx =>
        cases hL : run_lstm_model Lplot.lstmLearn ts C.lags C.lstm_units C.lstm_layers
            C.dropout C.epochs C.batch_size with
        | error e => simp [runForecast, hE, hA, hX, hL] at h
        | ok fl =>
          simp only [runForecast, hE, hA, hX, hL, Except.ok.injEq] at h
          have hAR : adapterResults Lplot C ts =
              [("ETS", Except.ok fe), ("ARIMA", Except.ok fa),
               ("XGBoost", Except.ok fx), ("LSTM", Except.ok fl)] := by
            simp [adapterResults, hE, hA, hX, hL]
          refine ⟨fe, fa, fx, fl, hAR, ?_, ?_, ?_, ?_⟩
          · rw [← h]
          · rw [← h]
          · rw [← h]
          · intro heq
            rw [heq]
            exact hAR

/-- C10 witness: a concrete run whose two invocation rounds do behave
identically (`libsAllOk` both times), with the theorem applied to it — there
the plotted curves equal the scored forecasts. -/
theorem plotted_forecasts_from_second_invocation_witness :
    runForecast libsAllOk libsAllOk defaultConfig seriesFourteen
      = Except.ok outcomeAllOk ∧
    ∃ fe fa fx fl,
      adapterResults libsAllOk defaultConfig seriesFourteen =
        [("ETS", Except.ok fe), ("ARIMA", Except.ok fa),
         ("XGBoost", Except.ok fx), ("LSTM", Except.ok fl)] ∧
      outcomeAllOk.forecasts = [("ETS Forecast", fe), ("ARIMA Forecast", fa),
        ("XGBoost Forecast", fx), ("LSTM Forecast", fl)] ∧
      outcomeAllOk.results = (collectLoop seriesFourteen
        (adapterResults libsAllOk defaultConfig seriesFourteen)).1 ∧
      outcomeAllOk.errors = (collectLoop seriesFourteen
        (adapterResults libsAllOk defaultConfig seriesFourteen)).2 ∧
      (libsAllOk = libsAllOk →
        adapterResults libsAllOk defaultConfig seriesFourteen =
          [("ETS", Except.ok fe), ("ARIMA", Except.ok fa),
           ("XGBoost", Except.ok fx), ("LSTM", Except.ok fl)]) := by
  have hE : run_ets_model etsFitConst seriesFourteen "add" "add" false 12
      = Except.ok onesTwelve := by decide
  have hA : run_arima_model sarimaxFitConst arimaFitConst seriesFourteen 1 1 1 0 0 0 1 false
      = Except.ok onesTwelve := by decide
  have hX : run_xgboost_model xgbLearnConst seriesFourteen 1 1 100 6
      = Except.ok onesTwelve := by decide
  have hL : run_lstm_model lstmLearnConst seriesFourteen 1 50 1 0 10 32
      = Except.ok onesTwelve := by decide
  have hold : seriesFourteen.drop (seriesFourteen.length - 12) = onesTwelve := by decide
  have hm : calculate_metrics onesTwelve onesTwelve = Except.ok zeroMetrics := by
    norm_num [calculate_metrics, epsSub, listMean, onesTwelve, zeroMetrics]
  have hrun : runForecast libsAllOk libsAllOk defaultConfig seriesFourteen
      = Except.ok outcomeAllOk := by
    simp [runForecast, collectLoop, collectGo, scoreOne, adapterResults, libsAllOk,
      defaultConfig, outcomeAllOk, hE, hA, hX, hL, hold, hm]
  exact ⟨hrun, plotted_forecasts_from_second_invocation libsAllOk libsAllOk defaultConfig
    seriesFourteen outcomeAllOk hrun⟩
